import Mathlib

/-!
Shallow embedding of `pkg/template/processor.go` from the member-operator
repository: a template processor that substitutes parameter values,
expands a template into rendered objects, filters them, and applies each
object to a cluster with a create-then-update strategy.

Cluster calls are modelled by an oracle (`Client`) of pure functions and a
recorded trace (`List Call`) of the calls made, so that claims about the
number, order and arguments of cluster calls are statements about the
trace.  Errors are structured values carrying the context the Go code
attaches with `errors.Wrapf`.
-/

namespace MemberOperator

/-- A template parameter: name, current value and optional generator
directive (`Parameter.Generate` in `templatev1`). -/
structure Parameter where
  name : String
  value : String
  generate : String
deriving DecidableEq, Repr

/-- A generic untyped (unstructured) resource: self-describing identity
plus arbitrary remaining fields, and the resource version token used for
optimistic concurrency. -/
structure Unstructured where
  kind : String
  apiVersion : String
  name : String
  nsp : String
  resourceVersion : String
  fields : List (String × String)
deriving DecidableEq, Repr

/-- A strongly-typed resource: identity plus an opaque payload standing
for all its remaining fields. -/
structure TypedObj where
  kind : String
  apiVersion : String
  name : String
  nsp : String
  payload : String
deriving DecidableEq, Repr

/-- A rendered object is either the generic unstructured form or a
strongly-typed resource (the runtime type test
`obj.(*unstructured.Unstructured)` in `createOrUpdateObj` dispatches on
this shape). -/
inductive Obj where
  | unstructured (u : Unstructured)
  | typed (t : TypedObj)
deriving DecidableEq, Repr

/-- The `Version` component of a parsed `apiVersion` string, as
`GroupVersionKind()` computes it: `"v1" ↦ "v1"`, `"apps/v1" ↦ "v1"`. -/
def versionOf (apiVersion : String) : String :=
  match apiVersion.splitOn "/" with
  | [v] => v
  | [_, v] => v
  | _ => ""

/-- The object's kind, as `GetObjectKind().GroupVersionKind().Kind`. -/
def Obj.gvkKind : Obj → String
  | .unstructured u => u.kind
  | .typed t => t.kind

/-- The object's version, as `GetObjectKind().GroupVersionKind().Version`. -/
def Obj.gvkVersion : Obj → String
  | .unstructured u => versionOf u.apiVersion
  | .typed t => versionOf t.apiVersion

/-- The object's metadata name. -/
def Obj.name : Obj → String
  | .unstructured u => u.name
  | .typed t => t.name

/-- The object's metadata namespace. -/
def Obj.nsp : Obj → String
  | .unstructured u => u.nsp
  | .typed t => t.nsp

/-- A cluster API error; `alreadyExists` models the
`apierrors.IsAlreadyExists` classification. -/
structure ApiError where
  alreadyExists : Bool
  msg : String
deriving DecidableEq, Repr

/-- One cluster call, with its arguments as the Go code passes them:
`Create(obj)`, `Get(kind, apiVersion, namespace, name)` (the identity
stamped on the `existing` receiver plus the `NamespacedName`), and
`Update(obj)`. -/
inductive Call where
  | create (o : Obj)
  | get (kind apiVersion nsp name : String)
  | update (o : Obj)
deriving DecidableEq, Repr

/-- The cluster client as a pure oracle: the response the cluster gives
to each call. -/
structure Client where
  create : Obj → Except ApiError Unit
  getU : String → String → String → String → Except ApiError Unstructured
  update : Obj → Except ApiError Unit

/-- Structured counterpart of the wrapped errors the processor returns
(`errs.Wrapf` with the shown context). -/
inductive PErr where
  /-- "failed to create object %v" — carries the whole object. -/
  | createFailed (e : ApiError) (o : Obj)
  /-- "unable to get the resource of kind '%s' and name '%s' in namespace '%s'". -/
  | getFailed (e : ApiError) (kind name nsp : String)
  /-- "unable to update the resource of kind '%s' and name '%s' in namespace '%s'". -/
  | updateUnstructuredFailed (e : ApiError) (kind name nsp : String)
  /-- "failed to update object %v" — carries the whole object. -/
  | updateTypedFailed (e : ApiError) (o : Obj)
  /-- `Apply`'s wrap: "unable to create resource of kind: %s, version: %s". -/
  | applyWrap (e : PErr) (kind version : String)
  /-- `Process`'s wrap of aggregated expansion errors:
  "unable to process template". -/
  | processFailed (es : List String)
  /-- "failed to convert template to external template object". -/
  | convertFailed (e : String)
deriving DecidableEq, Repr

/-- A template: named parameters and raw embedded objects (the
`RawExtension` list, each entry's decoded `Object` possibly nil). -/
structure Template where
  parameters : List Parameter
  objects : List (Option Obj)
deriving DecidableEq, Repr

/-- The override loop of `Process`: `templateprocessing.GetParameterByName`
returns a pointer to the first parameter with the given name, or nil;
when found, its value is set and its generator directive cleared in
place.  This updates the first match in the list and leaves the list
unchanged when no parameter matches. -/
def setParamFirst (name val : String) : List Parameter → List Parameter
  | [] => []
  | p :: ps =>
    if p.name = name then { p with value := val, generate := "" } :: ps
    else p :: setParamFirst name val ps

/-- One iteration of `Process`'s `for param, val := range values` loop. -/
def applyOverride (t : Template) (name val : String) : Template :=
  { t with parameters := setParamFirst name val t.parameters }

/-- The whole override loop: the map is modelled as its list of entries. -/
def injectValues (t : Template) (values : List (String × String)) : Template :=
  values.foldl (fun acc nv => applyOverride acc nv.1 nv.2) t

/-- Substitute `${NAME}` parameter references in a string, as the
third-party substitution does on the raw object payloads. -/
def substString (ps : List Parameter) (s : String) : String :=
  ps.foldl (fun acc p => acc.replace ("$\x7b" ++ p.name ++ "\x7d") p.value) s

/-- Substitute parameter values into every string of a rendered object. -/
def substObj (ps : List Parameter) : Obj → Obj
  | .unstructured u => .unstructured
      { kind := substString ps u.kind
        apiVersion := substString ps u.apiVersion
        name := substString ps u.name
        nsp := substString ps u.nsp
        resourceVersion := substString ps u.resourceVersion
        fields := u.fields.map fun kv => (kv.1, substString ps kv.2) }
  | .typed t => .typed
      { kind := substString ps t.kind
        apiVersion := substString ps t.apiVersion
        name := substString ps t.name
        nsp := substString ps t.nsp
        payload := substString ps t.payload }

/-- Modelled from the spec: the third-party
`templateprocessing.Processor.Process` call, whose source is not part of
this repository.  Per the spec, it expands the template in place using
the registered generator for parameters carrying a generator directive
(those whose value is still empty), reports generation failures as a
list of errors, and substitutes the resolved parameter values into the
embedded objects.  `gen` is the seeded expression generator registered
by `Process` (its seed taken from the current time on each invocation). -/
def expandTemplate (gen : String → Except String String) (t : Template) :
    Template × List String :=
  let step : List Parameter × List String :=
    t.parameters.foldl
      (fun acc p =>
        if p.generate ≠ "" ∧ p.value = "" then
          match gen p.generate with
          | .ok v => (acc.1 ++ [{ p with value := v }], acc.2)
          | .error e => (acc.1 ++ [p], acc.2 ++ [e])
        else (acc.1 ++ [p], acc.2))
      ([], [])
  ({ parameters := step.1, objects := t.objects.map (Option.map (substObj step.1)) },
   step.2)

/-- A filter over rendered objects (`FilterFunc` in this package). -/
def FilterFunc : Type := Option Obj → Bool

/-- Modelled from the spec: the `Filter` function of this package, whose
source file is not under `src/`.  Per the spec, filters are applied to
the object list in sequence; an object is retained only if every filter
accepts it; with no filters all objects are retained, order preserved. -/
def Filter (objs : List (Option Obj)) (filters : List FilterFunc) : List (Option Obj) :=
  objs.filter fun o => filters.all fun f => f o

/-- `Process(tmpl, values, filters...)`: inject the override values,
expand the template in place, and on success convert the (mutated)
template to its external representation — a separate value — returning
its filtered object list.  `gen` stands for the seeded expression
generator and `conv` for `scheme.Convert` into the external
representation, both third-party.  The first component of the result is
the caller's template value after the call (the Go code mutates it in
place). -/
def Process (gen : String → Except String String)
    (conv : Template → Except String Template) (tmpl : Template)
    (values : List (String × String)) (filters : List FilterFunc) :
    Template × Except PErr (List (Option Obj)) :=
  let t := injectValues tmpl values
  let expanded := expandTemplate gen t
  if expanded.2.isEmpty then
    match conv expanded.1 with
    | .error e => (expanded.1, .error (.convertFailed e))
    | .ok ext => (expanded.1, .ok (Filter ext.objects filters))
  else (expanded.1, .error (.processFailed expanded.2))

/-- `createOrUpdateObj(cl, obj)`: create the object; on an
already-exists failure, for an unstructured object get the existing
resource by the desired identity, stamp its resource version onto the
desired object and update it; for a typed object update it directly.
Returns the trace of cluster calls made and the (wrapped) result. -/
def createOrUpdateObj (cl : Client) (obj : Obj) : List Call × Except PErr Unit :=
  match cl.create obj with
  | .ok _ => ([Call.create obj], .ok ())
  | .error e =>
    if e.alreadyExists then
      match obj with
      | .unstructured u =>
        match cl.getU u.kind u.apiVersion u.nsp u.name with
        | .error ge =>
          ([Call.create obj, Call.get u.kind u.apiVersion u.nsp u.name],
           .error (.getFailed ge u.kind u.name u.nsp))
        | .ok existing =>
          let u' : Unstructured := { u with resourceVersion := existing.resourceVersion }
          match cl.update (.unstructured u') with
          | .error ue =>
            ([Call.create obj, Call.get u.kind u.apiVersion u.nsp u.name,
              Call.update (.unstructured u')],
             .error (.updateUnstructuredFailed ue u.kind u.name u.nsp))
          | .ok _ =>
            ([Call.create obj, Call.get u.kind u.apiVersion u.nsp u.name,
              Call.update (.unstructured u')], .ok ())
      | .typed t =>
        match cl.update (.typed t) with
        | .error ue => ([Call.create obj, Call.update (.typed t)],
                        .error (.updateTypedFailed ue (.typed t)))
        | .ok _ => ([Call.create obj, Call.update (.typed t)], .ok ())
    else ([Call.create obj], .error (.createFailed e obj))

/-- `Apply(objs)`: apply the objects in order, skipping entries whose
`Object` is nil, wrapping any failure with the object's kind and
version, and aborting on the first failure.  A `runtime.RawExtension` is
modelled as `Option Obj` (its possibly-nil decoded `Object` field). -/
def Apply (cl : Client) : List (Option Obj) → List Call × Except PErr Unit
  | [] => ([], .ok ())
  | none :: rest => Apply cl rest
  | some obj :: rest =>
    match createOrUpdateObj cl obj with
    | (tr, .error e) => (tr, .error (.applyWrap e obj.gvkKind obj.gvkVersion))
    | (tr, .ok _) =>
      let (tr2, res2) := Apply cl rest
      (tr ++ tr2, res2)

/-! ## Helper lemmas -/

theorem setParamFirst_of_not_mem (name val : String) :
    ∀ ps : List Parameter, (∀ p ∈ ps, p.name ≠ name) → setParamFirst name val ps = ps := by
  intro ps h
  induction ps with
  | nil => rfl
  | cons p ps ih =>
    simp only [setParamFirst]
    rw [if_neg (h p (by simp)), ih fun q hq => h q (by simp [hq])]

theorem setParamFirst_first_match (name val : String) (p : Parameter) (hp : p.name = name) :
    ∀ pre post : List Parameter, (∀ q ∈ pre, q.name ≠ name) →
      setParamFirst name val (pre ++ p :: post) =
        pre ++ { p with value := val, generate := "" } :: post := by
  intro pre
  induction pre with
  | nil => intro post _; simp [setParamFirst, hp]
  | cons q pre ih =>
    intro post h
    simp only [List.cons_append, setParamFirst]
    rw [if_neg (h q (by simp))]
    exact congrArg (List.cons q) (ih post fun r hr => h r (by simp [hr]))

theorem expandTemplate_gen_indep (t : Template)
    (h : ∀ p ∈ t.parameters, p.generate = "")
    (gen1 gen2 : String → Except String String) :
    expandTemplate gen1 t = expandTemplate gen2 t := by
  have key : ∀ (gen1 gen2 : String → Except String String)
      (ps : List Parameter) (acc : List Parameter × List String),
      (∀ p ∈ ps, p.generate = "") →
      ps.foldl
        (fun acc p =>
          if p.generate ≠ "" ∧ p.value = "" then
            match gen1 p.generate with
            | .ok v => (acc.1 ++ [{ p with value := v }], acc.2)
            | .error e => (acc.1 ++ [p], acc.2 ++ [e])
          else (acc.1 ++ [p], acc.2)) acc =
      ps.foldl
        (fun acc p =>
          if p.generate ≠ "" ∧ p.value = "" then
            match gen2 p.generate with
            | .ok v => (acc.1 ++ [{ p with value := v }], acc.2)
            | .error e => (acc.1 ++ [p], acc.2 ++ [e])
          else (acc.1 ++ [p], acc.2)) acc := by
    intro gen1 gen2 ps
    induction ps with
    | nil => intro acc _; rfl
    | cons p ps ih =>
      intro acc h
      have hp : p.generate = "" := h p (by simp)
      simp only [List.foldl_cons]
      rw [if_neg (by simp [hp]), if_neg (by simp [hp])]
      exact ih _ fun q hq => h q (by simp [hq])
  simp only [expandTemplate]
  rw [key gen1 gen2 t.parameters ([], []) h]

/-! ## Claims about `Process` -/

/-- **C6.** An object is retained by the filter step iff every filter in
the sequence accepts it; with no filters every object is retained;
relative order is preserved (the output is a sublist of the input); and
filtering by `[A, B]` in one call equals filtering by `A` and then by
`B` on the result. -/
theorem filter_retains_iff_all_accept :
    ∀ (objs : List (Option Obj)) (fs : List FilterFunc) (o : Option Obj)
      (A B : FilterFunc),
    (o ∈ Filter objs fs ↔ o ∈ objs ∧ ∀ f ∈ fs, f o = true)
    ∧ Filter objs [] = objs
    ∧ List.Sublist (Filter objs fs) objs
    ∧ Filter objs [A, B] = Filter (Filter objs [A]) [B] := by
  intro objs fs o A B
  refine ⟨?_, ?_, List.filter_sublist _, ?_⟩
  · simp [Filter, List.mem_filter, List.all_eq_true]
  · simp [Filter]
  · simp [Filter, List.filter_filter, Bool.and_comm]

/-- **C2.** For an override entry whose name matches a template
parameter, the first matching parameter gets its value set and its
generator directive cleared; an entry matching no parameter is silently
skipped — the parameter list is unchanged and the entry contributes
nothing to the override loop. -/
theorem override_sets_first_match_and_skips_absent (t : Template) (name val : String) :
    ((∀ p ∈ t.parameters, p.name ≠ name) → applyOverride t name val = t)
    ∧ (∀ pre p post, t.parameters = pre ++ p :: post →
        (∀ q ∈ pre, q.name ≠ name) → p.name = name →
        (applyOverride t name val).parameters =
          pre ++ { p with value := val, generate := "" } :: post)
    ∧ (∀ vs, (∀ p ∈ t.parameters, p.name ≠ name) →
        injectValues t ((name, val) :: vs) = injectValues t vs) := by
  refine ⟨?_, ?_, ?_⟩
  · intro h
    simp only [applyOverride, setParamFirst_of_not_mem name val t.parameters h]
  · intro pre p post hsplit hpre hp
    simp only [applyOverride]
    rw [hsplit, setParamFirst_first_match name val p hp pre post hpre]
  · intro vs h
    simp only [injectValues, List.foldl_cons]
    rw [show applyOverride t name val = t from by
      simp only [applyOverride, setParamFirst_of_not_mem name val t.parameters h]]

/-- **C9.** `Process` mutates the caller's template in place: whatever
the outcome (expansion failure, conversion failure or success), the
caller's template value after the call is the injected-and-expanded
template; only the conversion result is a separate value. -/
theorem process_mutates_caller_template (gen : String → Except String String)
    (conv : Template → Except String Template) (tmpl : Template)
    (values : List (String × String)) (filters : List FilterFunc) :
    (Process gen conv tmpl values filters).1 =
      (expandTemplate gen (injectValues tmpl values)).1 := by
  simp only [Process]
  split
  · split <;> rfl
  · rfl

/-- **C5.** If expansion reports one or more errors, `Process` returns
no object list and the aggregated expansion errors wrapped with
processing context; otherwise it converts the processed template to the
external representation and returns that value's object list run through
the filter chain. -/
theorem process_error_aggregation_and_success (gen : String → Except String String)
    (conv : Template → Except String Template) (tmpl : Template)
    (values : List (String × String)) (filters : List FilterFunc) :
    ((expandTemplate gen (injectValues tmpl values)).2 ≠ [] →
      Process gen conv tmpl values filters =
        ((expandTemplate gen (injectValues tmpl values)).1,
         .error (.processFailed (expandTemplate gen (injectValues tmpl values)).2)))
    ∧ (∀ ext, (expandTemplate gen (injectValues tmpl values)).2 = [] →
        conv (expandTemplate gen (injectValues tmpl values)).1 = .ok ext →
        Process gen conv tmpl values filters =
          ((expandTemplate gen (injectValues tmpl values)).1,
           .ok (Filter ext.objects filters))) := by
  constructor
  · intro h
    simp only [Process]
    rw [if_neg (by simpa [List.isEmpty_iff] using h)]
  · intro ext h hconv
    simp only [Process]
    rw [if_pos (by simpa [List.isEmpty_iff] using h), hconv]

/-- **C8.** When no parameter of the template carries a generator
directive after the overrides are applied, the result of `Process` does
not depend on the seeded expression generator: two runs with equal
inputs produce equal results even though the generator is reseeded from
the clock on each invocation. -/
theorem process_deterministic_without_generators
    (conv : Template → Except String Template) (tmpl : Template)
    (values : List (String × String)) (filters : List FilterFunc)
    (h : ∀ p ∈ (injectValues tmpl values).parameters, p.generate = "") :
    ∀ gen1 gen2, Process gen1 conv tmpl values filters =
      Process gen2 conv tmpl values filters := by
  intro gen1 gen2
  simp only [Process]
  rw [expandTemplate_gen_indep (injectValues tmpl values) h gen1 gen2]

/-! ## Helper lemmas about `createOrUpdateObj` and `Apply` -/

theorem createOrUpdateObj_create_err (cl : Client) (obj : Obj) (e : ApiError)
    (h : cl.create obj = .error e) (hne : e.alreadyExists = false) :
    createOrUpdateObj cl obj = ([Call.create obj], .error (.createFailed e obj)) := by
  unfold createOrUpdateObj
  rw [h]
  simp [hne]

theorem createOrUpdateObj_unstructured_exists (cl : Client) (u : Unstructured)
    (e : ApiError) (existing : Unstructured)
    (hc : cl.create (.unstructured u) = .error e) (he : e.alreadyExists = true)
    (hg : cl.getU u.kind u.apiVersion u.nsp u.name = .ok existing) :
    createOrUpdateObj cl (.unstructured u) =
      ([Call.create (.unstructured u), Call.get u.kind u.apiVersion u.nsp u.name,
        Call.update (.unstructured { u with resourceVersion := existing.resourceVersion })],
       match cl.update (.unstructured { u with resourceVersion := existing.resourceVersion }) with
       | .error ue => .error (.updateUnstructuredFailed ue u.kind u.name u.nsp)
       | .ok _ => .ok ()) := by
  unfold createOrUpdateObj
  rw [hc]
  simp only [he, if_true, hg]
  cases hu : cl.update (.unstructured { u with resourceVersion := existing.resourceVersion }) <;>
    simp [hu]

theorem createOrUpdateObj_typed_exists (cl : Client) (t : TypedObj) (e : ApiError)
    (hc : cl.create (.typed t) = .error e) (he : e.alreadyExists = true) :
    createOrUpdateObj cl (.typed t) =
      ([Call.create (.typed t), Call.update (.typed t)],
       match cl.update (.typed t) with
       | .error ue => .error (.updateTypedFailed ue (.typed t))
       | .ok _ => .ok ()) := by
  unfold createOrUpdateObj
  rw [hc]
  simp only [he, if_true]
  cases hu : cl.update (.typed t) <;> simp [hu]

theorem Apply_singleton (cl : Client) (obj : Obj) :
    Apply cl [some obj] =
      ((createOrUpdateObj cl obj).1,
       match (createOrUpdateObj cl obj).2 with
       | .error e => .error (.applyWrap e obj.gvkKind obj.gvkVersion)
       | .ok _ => .ok ()) := by
  rcases h : createOrUpdateObj cl obj with ⟨tr, res⟩
  cases res <;> simp [Apply, h]

/-- The kind attached by `Apply`'s wrap, recoverable from the error. -/
def PErr.wrappedKind : PErr → String
  | .applyWrap _ k _ => k
  | _ => ""

/-- The version attached by `Apply`'s wrap, recoverable from the error. -/
def PErr.wrappedVersion : PErr → String
  | .applyWrap _ _ v => v
  | _ => ""

/-- The offending resource's name, recoverable from an apply-step
error (the create/typed-update wraps carry the whole object, the
get/unstructured-update wraps carry the name directly). -/
def PErr.resName : PErr → String
  | .createFailed _ o => o.name
  | .getFailed _ _ n _ => n
  | .updateUnstructuredFailed _ _ n _ => n
  | .updateTypedFailed _ o => o.name
  | .applyWrap e _ _ => e.resName
  | _ => ""

/-- The offending resource's namespace, recoverable from an apply-step
error. -/
def PErr.resNsp : PErr → String
  | .createFailed _ o => o.nsp
  | .getFailed _ _ _ n => n
  | .updateUnstructuredFailed _ _ _ n => n
  | .updateTypedFailed _ o => o.nsp
  | .applyWrap e _ _ => e.resNsp
  | _ => ""

theorem createOrUpdateObj_error_ident (cl : Client) (obj : Obj) (e : PErr)
    (h : (createOrUpdateObj cl obj).2 = .error e) :
    e.resName = obj.name ∧ e.resNsp = obj.nsp := by
  unfold createOrUpdateObj at h
  cases hcr : cl.create obj with
  | ok _ => rw [hcr] at h; simp at h
  | error e0 =>
    rw [hcr] at h
    cases hae : e0.alreadyExists with
    | false =>
      simp only [hae, Bool.false_eq_true, if_false] at h
      simp only [Except.error.injEq] at h
      subst h
      exact ⟨rfl, rfl⟩
    | true =>
      simp only [hae, if_true] at h
      cases obj with
      | unstructured u =>
        dsimp only at h
        cases hg : cl.getU u.kind u.apiVersion u.nsp u.name with
        | error ge =>
          rw [hg] at h
          simp only [Except.error.injEq] at h
          subst h
          exact ⟨rfl, rfl⟩
        | ok existing =>
          rw [hg] at h
          dsimp only at h
          cases hu : cl.update (.unstructured { u with resourceVersion := existing.resourceVersion }) with
          | error ue =>
            rw [hu] at h
            simp only [Except.error.injEq] at h
            subst h
            exact ⟨rfl, rfl⟩
          | ok _ => rw [hu] at h; simp at h
      | typed t =>
        dsimp only at h
        cases hu : cl.update (.typed t) with
        | error ue =>
          rw [hu] at h
          simp only [Except.error.injEq] at h
          subst h
          exact ⟨rfl, rfl⟩
        | ok _ => rw [hu] at h; simp at h

/-! ## Claims about `Apply` -/

/-- **C1.** For a generic unstructured object whose creation fails with
already-exists, the apply step performs exactly one `Get` identified by
the desired object's kind, apiVersion, namespace and name, sets the
desired object's resource version to the token read from the existing
resource, and performs exactly one `Update` carrying that token — the
full call trace is create, get, update and nothing else. -/
theorem unstructured_exists_get_then_update_with_token (cl : Client)
    (u : Unstructured) (e : ApiError) (existing : Unstructured)
    (hc : cl.create (.unstructured u) = .error e) (he : e.alreadyExists = true)
    (hg : cl.getU u.kind u.apiVersion u.nsp u.name = .ok existing) :
    (Apply cl [some (.unstructured u)]).1 =
      [Call.create (.unstructured u),
       Call.get u.kind u.apiVersion u.nsp u.name,
       Call.update (.unstructured { u with resourceVersion := existing.resourceVersion })] := by
  rw [Apply_singleton, createOrUpdateObj_unstructured_exists cl u e existing hc he hg]

/-- **C10.** In the already-exists path for a generic unstructured
object, the object sent to `Update` differs from the rendered object
only in its resource version (set to the fetched token); the `Get` uses
the desired object's own name and namespace; every other field reaches
`Update` exactly as rendered. -/
theorem unstructured_update_only_resource_version_changed (cl : Client)
    (u : Unstructured) (e : ApiError) (existing : Unstructured)
    (hc : cl.create (.unstructured u) = .error e) (he : e.alreadyExists = true)
    (hg : cl.getU u.kind u.apiVersion u.nsp u.name = .ok existing) :
    ∃ u', (Apply cl [some (.unstructured u)]).1 =
        [Call.create (.unstructured u),
         Call.get u.kind u.apiVersion u.nsp u.name,
         Call.update (.unstructured u')]
      ∧ u'.resourceVersion = existing.resourceVersion
      ∧ u'.kind = u.kind ∧ u'.apiVersion = u.apiVersion
      ∧ u'.name = u.name ∧ u'.nsp = u.nsp ∧ u'.fields = u.fields := by
  refine ⟨{ u with resourceVersion := existing.resourceVersion },
    ?_, rfl, rfl, rfl, rfl, rfl, rfl⟩
  rw [Apply_singleton, createOrUpdateObj_unstructured_exists cl u e existing hc he hg]

/-- **C4.** For a strongly-typed object whose creation fails with
already-exists, the apply step performs exactly one direct `Update` of
the object as rendered and no `Get`; a failing update is surfaced to the
caller (wrapped) without any retry. -/
theorem typed_exists_single_update_no_get (cl : Client) (t : TypedObj)
    (e : ApiError) (hc : cl.create (.typed t) = .error e)
    (he : e.alreadyExists = true) :
    (Apply cl [some (.typed t)]).1 = [Call.create (.typed t), Call.update (.typed t)]
    ∧ ∀ ue, cl.update (.typed t) = .error ue →
        (Apply cl [some (.typed t)]).2 =
          .error (.applyWrap (.updateTypedFailed ue (.typed t))
            t.kind (versionOf t.apiVersion)) := by
  constructor
  · rw [Apply_singleton, createOrUpdateObj_typed_exists cl t e hc he]
  · intro ue hu
    rw [Apply_singleton, createOrUpdateObj_typed_exists cl t e hc he]
    simp [hu, Obj.gvkKind, Obj.gvkVersion]

/-- **C3.** When an object's creation fails with an error not classified
as already-exists, `Apply` returns at once that failure wrapped with the
object's kind and version, and no cluster call is made for any
subsequent object: the whole result — trace included — does not depend
on the rest of the list. -/
theorem create_failure_aborts_batch (cl : Client) (o : Obj) (e : ApiError)
    (rest : List (Option Obj)) (hc : cl.create o = .error e)
    (hne : e.alreadyExists = false) :
    ∀ pre, (∀ o', some o' ∈ pre → (createOrUpdateObj cl o').2 = .ok ()) →
      Apply cl (pre ++ some o :: rest) =
        ((Apply cl pre).1 ++ [Call.create o],
         .error (.applyWrap (.createFailed e o) o.gvkKind o.gvkVersion)) := by
  intro pre
  induction pre with
  | nil =>
    intro _
    simp [Apply, createOrUpdateObj_create_err cl o e hc hne]
  | cons head pre ih =>
    intro hpre
    cases head with
    | none =>
      simp only [List.cons_append, Apply]
      exact ih fun o' h => hpre o' (by simp [h])
    | some p =>
      have hp : (createOrUpdateObj cl p).2 = .ok () := hpre p (by simp)
      rcases hcu : createOrUpdateObj cl p with ⟨tr, res⟩
      rw [hcu] at hp
      simp only at hp
      subst hp
      simp only [List.cons_append, Apply, hcu, List.append_eq]
      rw [ih fun o' h => hpre o' (by simp [h])]
      simp

/-- **C7.** Every failure of the apply step — create failure other than
already-exists, failure to get the existing resource, or update
failure — is returned by `Apply` wrapped so that the offending
resource's kind, version, name and namespace are all recoverable from
the error. -/
theorem apply_errors_carry_resource_identity (cl : Client) (obj : Obj)
    (e : PErr) (rest : List (Option Obj))
    (h : (createOrUpdateObj cl obj).2 = .error e) :
    (Apply cl (some obj :: rest)).2 =
        .error (.applyWrap e obj.gvkKind obj.gvkVersion)
    ∧ (PErr.applyWrap e obj.gvkKind obj.gvkVersion).wrappedKind = obj.gvkKind
    ∧ (PErr.applyWrap e obj.gvkKind obj.gvkVersion).wrappedVersion = obj.gvkVersion
    ∧ (PErr.applyWrap e obj.gvkKind obj.gvkVersion).resName = obj.name
    ∧ (PErr.applyWrap e obj.gvkKind obj.gvkVersion).resNsp = obj.nsp := by
  obtain ⟨hn, hns⟩ := createOrUpdateObj_error_ident cl obj e h
  refine ⟨?_, rfl, rfl, ?_, ?_⟩
  · rcases hcu : createOrUpdateObj cl obj with ⟨tr, res⟩
    rw [hcu] at h
    simp only at h
    subst h
    simp [Apply, hcu]
  · simpa [PErr.resName] using hn
  · simpa [PErr.resNsp] using hns

/-! ## Concrete fixtures -/

/-- A sample unstructured resource, as the NSTemplateTier the source
comments mention. -/
def uDemo : Unstructured :=
  { kind := "NSTemplateTier"
    apiVersion := "toolchain.dev.openshift.com/v1alpha1"
    name := "basic"
    nsp := "toolchain-member"
    resourceVersion := ""
    fields := [("spec.type", "base")] }

/-- The resource already on the cluster, holding a version token. -/
def existingDemo : Unstructured := { uDemo with resourceVersion := "12345" }

/-- A sample strongly-typed resource. -/
def tDemo : TypedObj :=
  { kind := "ServiceAccount", apiVersion := "v1", name := "sa", nsp := "ns"
    payload := "secrets" }

/-- An already-exists failure. -/
def errExists : ApiError := { alreadyExists := true, msg := "already exists" }

/-- A create failure that is not already-exists. -/
def errBoom : ApiError := { alreadyExists := false, msg := "forbidden" }

/-- An update failure (stale-version conflict). -/
def errConflict : ApiError := { alreadyExists := false, msg := "conflict" }

/-- A cluster where every create hits an existing resource and updates
succeed. -/
def clExists : Client :=
  { create := fun _ => .error errExists
    getU := fun _ _ _ _ => .ok existingDemo
    update := fun _ => .ok () }

/-- A cluster where every create hits an existing resource and updates
fail with a conflict. -/
def clExistsUpdateFails : Client :=
  { create := fun _ => .error errExists
    getU := fun _ _ _ _ => .ok existingDemo
    update := fun _ => .error errConflict }

/-- A cluster where every create fails for a non-exists reason. -/
def clCreateFails : Client :=
  { create := fun _ => .error errBoom
    getU := fun _ _ _ _ => .ok existingDemo
    update := fun _ => .ok () }

/-- A template with one generator-backed parameter. -/
def tmplGen : Template :=
  { parameters := [{ name := "P", value := "", generate := "expression" }]
    objects := [some (.typed tDemo)] }

/-- A template with one plain parameter and no generator directives. -/
def tmplPlain : Template :=
  { parameters := [{ name := "P", value := "x", generate := "" }]
    objects := [some (.typed tDemo), none] }

/-- A generator that always fails. -/
def genFail : String → Except String String := fun _ => .error "generator failure"

/-- A generator that echoes the directive. -/
def genOk : String → Except String String := fun s => .ok s

/-- The identity conversion to the external representation. -/
def convId : Template → Except String Template := fun t => .ok t

/-! ## Witnesses -/

theorem unstructured_exists_get_then_update_with_token_witness :
    clExists.create (.unstructured uDemo) = .error errExists
    ∧ errExists.alreadyExists = true
    ∧ clExists.getU uDemo.kind uDemo.apiVersion uDemo.nsp uDemo.name = .ok existingDemo
    ∧ (Apply clExists [some (.unstructured uDemo)]).1 =
        [Call.create (.unstructured uDemo),
         Call.get uDemo.kind uDemo.apiVersion uDemo.nsp uDemo.name,
         Call.update (.unstructured { uDemo with resourceVersion := existingDemo.resourceVersion })] :=
  ⟨rfl, rfl, rfl,
   unstructured_exists_get_then_update_with_token clExists uDemo errExists existingDemo rfl rfl rfl⟩

theorem override_sets_first_match_and_skips_absent_witness :
    (applyOverride tmplGen "P" "v").parameters =
      [{ name := "P", value := "v", generate := "" }]
    ∧ applyOverride tmplGen "Q" "v" = tmplGen
    ∧ injectValues tmplGen [("Q", "v")] = injectValues tmplGen [] :=
  ⟨(override_sets_first_match_and_skips_absent tmplGen "P" "v").2.1 []
      { name := "P", value := "", generate := "expression" } [] rfl (by simp) rfl,
   (override_sets_first_match_and_skips_absent tmplGen "Q" "v").1 (by decide),
   (override_sets_first_match_and_skips_absent tmplGen "Q" "v").2.2 [] (by decide)⟩

theorem create_failure_aborts_batch_witness :
    clCreateFails.create (.typed tDemo) = .error errBoom
    ∧ errBoom.alreadyExists = false
    ∧ Apply clCreateFails ([none] ++ some (.typed tDemo) :: [some (.unstructured uDemo)]) =
        ((Apply clCreateFails [none]).1 ++ [Call.create (.typed tDemo)],
         .error (.applyWrap (.createFailed errBoom (.typed tDemo))
           (Obj.typed tDemo).gvkKind (Obj.typed tDemo).gvkVersion)) :=
  ⟨rfl, rfl,
   create_failure_aborts_batch clCreateFails (.typed tDemo) errBoom
     [some (.unstructured uDemo)] rfl rfl [none] (by simp)⟩

theorem typed_exists_single_update_no_get_witness :
    (Apply clExistsUpdateFails [some (.typed tDemo)]).1 =
      [Call.create (.typed tDemo), Call.update (.typed tDemo)]
    ∧ (Apply clExistsUpdateFails [some (.typed tDemo)]).2 =
        .error (.applyWrap (.updateTypedFailed errConflict (.typed tDemo))
          tDemo.kind (versionOf tDemo.apiVersion)) :=
  ⟨(typed_exists_single_update_no_get clExistsUpdateFails tDemo errExists rfl rfl).1,
   (typed_exists_single_update_no_get clExistsUpdateFails tDemo errExists rfl rfl).2
     errConflict rfl⟩

theorem process_error_aggregation_and_success_witness :
    ((expandTemplate genFail (injectValues tmplGen [])).2 ≠ []
      ∧ Process genFail convId tmplGen [] [] =
          ((expandTemplate genFail (injectValues tmplGen [])).1,
           .error (.processFailed (expandTemplate genFail (injectValues tmplGen [])).2)))
    ∧ ((expandTemplate genOk (injectValues tmplPlain [])).2 = []
      ∧ convId (expandTemplate genOk (injectValues tmplPlain [])).1 =
          .ok (expandTemplate genOk (injectValues tmplPlain [])).1
      ∧ Process genOk convId tmplPlain [] [] =
          ((expandTemplate genOk (injectValues tmplPlain [])).1,
           .ok (Filter (expandTemplate genOk (injectValues tmplPlain [])).1.objects []))) :=
  ⟨⟨by decide,
    (process_error_aggregation_and_success genFail convId tmplGen [] []).1 (by decide)⟩,
   ⟨by decide, rfl,
    (process_error_aggregation_and_success genOk convId tmplPlain [] []).2
      (expandTemplate genOk (injectValues tmplPlain [])).1 (by decide) rfl⟩⟩

theorem apply_errors_carry_resource_identity_witness :
    (createOrUpdateObj clExistsUpdateFails (.unstructured uDemo)).2 =
      .error (.updateUnstructuredFailed errConflict uDemo.kind uDemo.name uDemo.nsp)
    ∧ ((Apply clExistsUpdateFails [some (.unstructured uDemo)]).2 =
        .error (.applyWrap
          (.updateUnstructuredFailed errConflict uDemo.kind uDemo.name uDemo.nsp)
          (Obj.unstructured uDemo).gvkKind (Obj.unstructured uDemo).gvkVersion)
      ∧ (PErr.applyWrap
          (.updateUnstructuredFailed errConflict uDemo.kind uDemo.name uDemo.nsp)
          (Obj.unstructured uDemo).gvkKind (Obj.unstructured uDemo).gvkVersion).wrappedKind =
            (Obj.unstructured uDemo).gvkKind
      ∧ (PErr.applyWrap
          (.updateUnstructuredFailed errConflict uDemo.kind uDemo.name uDemo.nsp)
          (Obj.unstructured uDemo).gvkKind (Obj.unstructured uDemo).gvkVersion).wrappedVersion =
            (Obj.unstructured uDemo).gvkVersion
      ∧ (PErr.applyWrap
          (.updateUnstructuredFailed errConflict uDemo.kind uDemo.name uDemo.nsp)
          (Obj.unstructured uDemo).gvkKind (Obj.unstructured uDemo).gvkVersion).resName =
            (Obj.unstructured uDemo).name
      ∧ (PErr.applyWrap
          (.updateUnstructuredFailed errConflict uDemo.kind uDemo.name uDemo.nsp)
          (Obj.unstructured uDemo).gvkKind (Obj.unstructured uDemo).gvkVersion).resNsp =
            (Obj.unstructured uDemo).nsp) :=
  ⟨rfl,
   apply_errors_carry_resource_identity clExistsUpdateFails (.unstructured uDemo)
     (.updateUnstructuredFailed errConflict uDemo.kind uDemo.name uDemo.nsp) [] rfl⟩

theorem process_deterministic_without_generators_witness :
    (∀ p ∈ (injectValues tmplPlain [("P", "y")]).parameters, p.generate = "")
    ∧ Process (fun s => .ok (s ++ "1")) convId tmplPlain [("P", "y")] [] =
        Process (fun _ => .ok "zzz") convId tmplPlain [("P", "y")] [] :=
  ⟨by decide,
   process_deterministic_without_generators convId tmplPlain [("P", "y")] []
     (by decide) (fun s => .ok (s ++ "1")) (fun _ => .ok "zzz")⟩

theorem unstructured_update_only_resource_version_changed_witness :
    clExistsUpdateFails.create (.unstructured uDemo) = .error errExists
    ∧ errExists.alreadyExists = true
    ∧ clExistsUpdateFails.getU uDemo.kind uDemo.apiVersion uDemo.nsp uDemo.name = .ok existingDemo
    ∧ ∃ u', (Apply clExistsUpdateFails [some (.unstructured uDemo)]).1 =
          [Call.create (.unstructured uDemo),
           Call.get uDemo.kind uDemo.apiVersion uDemo.nsp uDemo.name,
           Call.update (.unstructured u')]
        ∧ u'.resourceVersion = existingDemo.resourceVersion
        ∧ u'.kind = uDemo.kind ∧ u'.apiVersion = uDemo.apiVersion
        ∧ u'.name = uDemo.name ∧ u'.nsp = uDemo.nsp ∧ u'.fields = uDemo.fields :=
  ⟨rfl, rfl, rfl,
   unstructured_update_only_resource_version_changed clExistsUpdateFails uDemo
     errExists existingDemo rfl rfl rfl⟩

end MemberOperator
